import Mathlib

/-!
Shallow embedding of the duva cluster actor core
(src/duva/src/domains/cluster_actors/actor.rs) and the client
command parser (src/duva/src/presentation/clients/request.rs).

Machine integers (`u64`, `usize`) are modelled as `Nat`; the only
place where wrapping matters is the `as u8` cast in `hop_count`,
modelled by `% 256`.  Stateful actor methods become pure functions
`ClusterState → ... → ClusterState × List Effect`, where an
`Effect` records an externally visible action (peer send, client
callback completion, timer reset, topology broadcast, cache apply,
command enqueue).  Collaborator code living outside src/ (the WAL
logger, ReplicationState helpers, the consensus-tracker value type,
the hash ring, peer/session bookkeeping) is modelled from the spec;
each such definition carries a doc comment saying so.
-/

namespace Duva

abbrev PeerId := Nat
abbrev ReplId := Nat

inductive ReplicationRole
  | leader
  | follower
deriving DecidableEq

inductive ElectionState
  | follower (voted_for : Option PeerId)
  | candidate
  | leader
deriving DecidableEq

/-- Write requests are opaque to the actor except for their key list
(`WriteRequest::all_keys`), which is all the actor core inspects. -/
structure WriteRequest where
  keys : List String
deriving DecidableEq

structure LogEntry where
  log_index : Nat
  term : Nat
  request : WriteRequest
  session_req : Option Nat
deriving DecidableEq

/-- The replicated-log facade: the WAL is modelled as the list of its
entries (indices dense from 1, per the spec's data model). -/
structure ReplicatedLogs where
  entries : List LogEntry
deriving DecidableEq

def ReplicatedLogs.last_log_index (l : ReplicatedLogs) : Nat :=
  (l.entries.getLast?).elim 0 (fun e => e.log_index)

def ReplicatedLogs.last_log_term (l : ReplicatedLogs) : Nat :=
  (l.entries.getLast?).elim 0 (fun e => e.term)

def ReplicatedLogs.is_empty (l : ReplicatedLogs) : Bool :=
  l.entries.isEmpty

def ReplicatedLogs.read_at (l : ReplicatedLogs) (i : Nat) : Option LogEntry :=
  l.entries.find? (fun e => e.log_index == i)

def ReplicatedLogs.truncate_after (l : ReplicatedLogs) (i : Nat) : ReplicatedLogs :=
  ⟨l.entries.filter (fun e => e.log_index ≤ i)⟩

/-- Modelled from the spec (§4.B; operation_logs/logger.rs is outside
src/): `write_single_entry` appends at `last_log_index + 1` with the
given term.  WAL rejection is modelled by the `walOk` flag threaded by
the callers that can observe it. -/
def ReplicatedLogs.write_single_entry (l : ReplicatedLogs) (req : WriteRequest)
    (term : Nat) (session : Option Nat) : ReplicatedLogs :=
  ⟨l.entries ++ [⟨l.last_log_index + 1, term, req, session⟩]⟩

/-- Modelled from the spec (§4.B; operation_logs/logger.rs is outside
src/): `follower_write_entries` appends a contiguous batch of entries
whose indices exceed the local last index and returns the new last
log index as the follower match index. -/
def ReplicatedLogs.follower_write_entries (l : ReplicatedLogs)
    (es : List LogEntry) : ReplicatedLogs × Nat :=
  let l2 : ReplicatedLogs := ⟨l.entries ++ es⟩
  (l2, l2.last_log_index)

/-- Modelled from the spec (§3; peer.rs is outside src/): the peer
fields the actor core reads.  `last_seen` bookkeeping is represented
by timer effects rather than a stored instant. -/
structure Peer where
  replid : ReplId
  role : ReplicationRole
  match_index : Nat
deriving DecidableEq

/-- Modelled from the spec (glossary; peer.rs is outside src/): a peer
is a replica of the given replication id when it belongs to that shard
group. -/
def Peer.is_replica (p : Peer) (replid : ReplId) : Bool :=
  p.replid == replid

/-- Modelled from the spec (§3; replication.rs is outside src/): the
replication-state fields the actor core reads and writes.  The atomic
`hwm` counter is a plain `Nat` since the embedding is sequential. -/
structure ReplicationState where
  self_id : PeerId
  replid : ReplId
  role : ReplicationRole
  term : Nat
  election_state : ElectionState
  hwm : Nat
deriving DecidableEq

def ReplicationState.is_leader (r : ReplicationState) : Bool :=
  r.role == .leader

/-- Modelled from the spec (§4.A; replication.rs is outside src/):
returns true iff the candidate term is strictly higher and the current
election state permits voting; on success the term is adopted, the
role becomes Follower and the vote is recorded for the candidate.
Which election states permit voting is not pinned down by the spec, so
it is kept as the `votable` parameter. -/
def ReplicationState.become_follower_if_term_higher_and_votable
    (r : ReplicationState) (votable : ElectionState → Bool)
    (candidate : PeerId) (term : Nat) : ReplicationState × Bool :=
  if r.term < term && votable r.election_state then
    ({ r with term := term, role := .follower,
              election_state := .follower (some candidate) }, true)
  else (r, false)

inductive RejectionReason
  | receiverHasHigherTerm
  | logInconsistency
  | failToWrite
deriving DecidableEq

/-- Modelled from the spec (§6; peers/command.rs is outside src/): a
replication acknowledgement carries the sender, its term, a log index
and an optional rejection reason. -/
structure ReplicationAck where
  from_id : PeerId
  term : Nat
  log_idx : Nat
  rej_reason : Option RejectionReason
deriving DecidableEq

def ReplicationAck.is_granted (a : ReplicationAck) : Bool :=
  a.rej_reason.isNone

/-- Modelled from the spec: `ReplicationAck::ack(match_index, &repl)`
stamps the ack with the local identity and term. -/
def ReplicationAck.ack (match_index : Nat) (r : ReplicationState) : ReplicationAck :=
  ⟨r.self_id, r.term, match_index, none⟩

/-- Modelled from the spec: `ReplicationAck::reject(idx, reason, &repl)`
stamps the rejection with the local identity and term. -/
def ReplicationAck.reject (idx : Nat) (reason : RejectionReason)
    (r : ReplicationState) : ReplicationAck :=
  ⟨r.self_id, r.term, idx, some reason⟩

/-- The fields of a heartbeat / append-entries message that the
replication path of the actor reads (gossip-only fields such as the
cluster-node list and ban list are carried by other code paths). -/
structure HeartBeat where
  from_id : PeerId
  term : Nat
  hwm : Nat
  prev_log_index : Nat
  prev_log_term : Nat
  append_entries : List LogEntry
deriving DecidableEq

structure RequestVote where
  candidate_id : PeerId
  term : Nat
  last_log_index : Nat
deriving DecidableEq

/-- Modelled from the spec (§4.C; the consensus module is outside
src/): per-index vote accumulation plus the client callback, here
identified by `cbId`. -/
structure LogConsensusVoting where
  cnt : Nat
  voters : List PeerId
  required : Nat
  session_req : Option Nat
  cbId : Nat
deriving DecidableEq

/-- The hash ring as the actor core observes it: an ordered partition
map and a modification stamp (virtual-node placement lives behind the
routing abstraction). -/
structure HashRing where
  partitions : List (ReplId × PeerId)
  last_modified : Nat
deriving DecidableEq

/-- Modelled from the spec (§3; hash_ring.rs is outside src/):
`set_partitions` returns `none` when the given partitions leave the
ring unchanged, otherwise installs them and bumps `last_modified`. -/
def HashRing.set_partitions (r : HashRing) (parts : List (ReplId × PeerId)) :
    Option HashRing :=
  if parts == r.partitions then none
  else some ⟨parts, r.last_modified + 1⟩

structure MigrationTask where
  keys_to_migrate : List String
deriving DecidableEq

structure ConsensusRequest where
  request : WriteRequest
  session_req : Option Nat
  cbId : Nat
deriving DecidableEq

inductive ConsensusClientResponse
  | logIndex (i : Nat)
  | alreadyProcessed (keys : List String) (index : Nat)
  | err (s : String)
  | text (s : String)
deriving DecidableEq

inductive Msg
  | electionVote (term : Nat) (vote_granted : Bool)
  | replicationAck (ack : ReplicationAck)
  | appendEntriesRpc
deriving DecidableEq

/-- Externally visible actions of one actor step.  `appendEntriesRpc`
marks the leader fan-out built by `iter_follower_append_entries`,
whose per-follower message assembly reads but never writes actor
state. -/
inductive Effect
  | sendTo (peer : PeerId) (msg : Msg)
  | callback (cbId : Nat) (resp : ConsensusClientResponse)
  | resetElectionTimer (peer : PeerId)
  | broadcastTopology
  | applyLog (req : WriteRequest) (idx : Nat)
  | enqueueLeaderReqConsensus (req : ConsensusRequest)
  | scheduleMigrationBatch (target : ReplId) (tasks : List MigrationTask)
deriving DecidableEq

/-- The actor state restricted to the fields the verified operations
touch (channels, schedulers and file handles become effects). -/
structure ClusterState where
  members : List (PeerId × Peer)
  replication : ReplicationState
  logger : ReplicatedLogs
  consensus_tracker : List (Nat × LogConsensusVoting)
  client_sessions : List Nat
  hash_ring : HashRing
  pending_requests : Option (List ConsensusRequest)
  pending_migrations : Option (List (Nat × List String))
deriving DecidableEq

/-- Modelled from the spec (client_sessions.rs is outside src/): the
at-most-once dedupe set of processed session requests. -/
def sessions_is_processed (sessions : List Nat) (req : Option Nat) : Bool :=
  match req with
  | none => false
  | some id => sessions.contains id

/-- Modelled from the spec (client_sessions.rs is outside src/):
records a processed session request. -/
def sessions_set_response (sessions : List Nat) (req : Option Nat) : List Nat :=
  match req with
  | none => sessions
  | some id => id :: sessions

def ClusterState.replicas (s : ClusterState) : List (PeerId × Peer) :=
  s.members.filter (fun m => m.2.is_replica s.replication.replid)

def ClusterState.replicas_count (s : ClusterState) : Nat :=
  s.replicas.length

def ClusterState.find_replica (s : ClusterState) (pid : PeerId) : Option Peer :=
  ((s.members.find? (fun m => m.1 == pid)).map (fun m => m.2)).filter
    (fun p => p.is_replica s.replication.replid)

def ClusterState.update_peer_match (s : ClusterState) (pid : PeerId)
    (idx : Nat) : ClusterState :=
  { s with members := s.members.map (fun m =>
      if m.1 == pid then (m.1, { m.2 with match_index := idx }) else m) }

/-- `send_replication_ack`: the ack is sent only when the destination
is a current member. -/
def send_replication_ack (s : ClusterState) (send_to : PeerId)
    (ack : ReplicationAck) : List Effect :=
  if (s.members.find? (fun m => m.1 == send_to)).isSome then
    [.sendTo send_to (.replicationAck ack)]
  else []

/-- Modelled from the spec (§4.C): `LogConsensusTracker::add` stores a
fresh voting record with `required_votes = ceil((replica_count+1)/2) - 1`. -/
def tracker_add (t : List (Nat × LogConsensusVoting)) (idx : Nat)
    (req : ConsensusRequest) (repl_cnt : Nat) : List (Nat × LogConsensusVoting) :=
  t ++ [(idx, ⟨0, [], (repl_cnt + 2) / 2 - 1, req.session_req, req.cbId⟩)]

def tracker_remove (t : List (Nat × LogConsensusVoting)) (idx : Nat) :
    Option LogConsensusVoting × List (Nat × LogConsensusVoting) :=
  match t.find? (fun e => e.1 == idx) with
  | none => (none, t)
  | some e => (some e.2, t.eraseP (fun e2 => e2.1 == idx))

/-- The per-replica append-entries fan-out of `send_rpc_to_replicas`
(message contents are built read-only by `iter_follower_append_entries`). -/
def send_rpc_to_replicas (s : ClusterState) : List Effect :=
  s.replicas.map (fun m => .sendTo m.1 .appendEntriesRpc)

/-- `req_consensus` from actor.rs.  `walOk` models whether
`write_single_entry` is accepted by the WAL (the appended state on
success, an error callback on failure). -/
def req_consensus (s : ClusterState) (walOk : Bool) (req : ConsensusRequest) :
    ClusterState × List Effect :=
  if !s.replication.is_leader then
    (s, [.callback req.cbId (.text "Write given to follower")])
  else if !walOk then
    (s, [.callback req.cbId (.err "wal rejected the entry")])
  else
    let logger := s.logger.write_single_entry req.request s.replication.term req.session_req
    let s1 := { s with logger := logger }
    let repl_cnt := s1.replicas_count
    if repl_cnt == 0 then
      ({ s1 with replication := { s1.replication with hwm := s1.replication.hwm + 1 } },
       [.callback req.cbId (.logIndex logger.last_log_index)])
    else
      ({ s1 with consensus_tracker :=
           tracker_add s1.consensus_tracker logger.last_log_index req repl_cnt },
       send_rpc_to_replicas s1)

/-- `track_replication_progress` from actor.rs. -/
def track_replication_progress (s : ClusterState) (res : ReplicationAck) :
    ClusterState × List Effect :=
  match tracker_remove s.consensus_tracker res.log_idx with
  | (none, _) => (s, [])
  | (some consensus, rest) =>
    let s1 := { s with consensus_tracker := rest }
    let voted := !(consensus.voters.contains res.from_id)
    let s2 := if voted then s1.update_peer_match res.from_id res.log_idx else s1
    let consensus :=
      if voted then
        { consensus with cnt := consensus.cnt + 1, voters := res.from_id :: consensus.voters }
      else consensus
    if consensus.cnt < consensus.required then
      ({ s2 with consensus_tracker := s2.consensus_tracker ++ [(res.log_idx, consensus)] }, [])
    else
      ({ s2 with
           replication := { s2.replication with hwm := s2.replication.hwm + 1 },
           client_sessions := sessions_set_response s2.client_sessions consensus.session_req },
       [.callback consensus.cbId (.logIndex res.log_idx)])

/-- Modelled from the spec (§7; `ReplicationState::vote_for` is outside
src/): `step_down` clears the recorded vote and switches the scheduler
to follower mode (a scheduler-only transition, no effect recorded). -/
def step_down (s : ClusterState) : ClusterState :=
  { s with replication :=
      { s.replication with election_state := .follower none } }

def decrease_match_index (s : ClusterState) (pid : PeerId) (idx : Nat) : ClusterState :=
  s.update_peer_match pid idx

/-- `handle_repl_rejection` from actor.rs. -/
def handle_repl_rejection (s : ClusterState) (res : ReplicationAck) :
    ClusterState :=
  match res.rej_reason with
  | none => s
  | some .receiverHasHigherTerm => step_down s
  | some .logInconsistency => decrease_match_index s res.from_id res.log_idx
  | some .failToWrite => s

/-- `ack_replication` from actor.rs. -/
def ack_replication (s : ClusterState) (res : ReplicationAck) :
    ClusterState × List Effect :=
  if !res.is_granted then (handle_repl_rejection s res, [])
  else track_replication_progress (s.update_peer_match res.from_id res.log_idx) res

/-- `ensure_prev_consistency` from actor.rs, as a pure function of the
log: empty log accepts exactly `prev_log_index = 0`; a term mismatch
at `prev_log_index` truncates everything after that index and rejects
with `LogInconsistency`. -/
def ensure_prev_consistency (l : ReplicatedLogs)
    (prev_log_index prev_log_term : Nat) :
    ReplicatedLogs × Option RejectionReason :=
  if l.is_empty then
    if prev_log_index == 0 then (l, none)
    else (l, some .logInconsistency)
  else
    match l.read_at prev_log_index with
    | some prev_entry =>
      if prev_entry.term != prev_log_term then
        (l.truncate_after prev_log_index, some .logInconsistency)
      else (l, none)
    | none => (l, none)

/-- `replicate_log_entries` from actor.rs: drop stale entries, check
previous-entry consistency, append, ack the new match index, record
carried session requests. -/
def replicate_log_entries (s : ClusterState) (hb : HeartBeat) :
    ClusterState × List Effect × Option RejectionReason :=
  if hb.append_entries.isEmpty then (s, [], none)
  else
    let fresh := hb.append_entries.filter
      (fun e => s.logger.last_log_index < e.log_index)
    let entries := fresh.map (fun e => { e with session_req := none })
    let session_reqs := fresh.filterMap (fun e => e.session_req)
    match ensure_prev_consistency s.logger hb.prev_log_index hb.prev_log_term with
    | (logger, some rej) => ({ s with logger := logger }, [], some rej)
    | (logger, none) =>
      let (logger2, match_index) := logger.follower_write_entries entries
      let s1 := { s with logger := logger2 }
      let effs := send_replication_ack s1 hb.from_id
        (ReplicationAck.ack match_index s1.replication)
      let sessions := session_reqs.foldl
        (fun acc r => sessions_set_response acc (some r)) s1.client_sessions
      ({ s1 with client_sessions := sessions }, effs, none)

/-- The commit-application loop of `replicate_state`: apply each log
entry in index order; a missing entry aborts with a rejection ack and
leaves the high-water mark untouched. -/
def apply_logs_loop (s : ClusterState) (from_id : PeerId) :
    List Nat → List Effect → List Effect × Bool
  | [], acc => (acc, true)
  | i :: rest, acc =>
    match s.logger.read_at i with
    | none =>
      (acc ++ send_replication_ack s from_id
         (ReplicationAck.reject s.logger.last_log_index .logInconsistency
            s.replication), false)
    | some log => apply_logs_loop s from_id rest (acc ++ [.applyLog log.request i])

/-- `replicate_state` from actor.rs. -/
def replicate_state (s : ClusterState) (hb : HeartBeat) :
    ClusterState × List Effect :=
  let old_hwm := s.replication.hwm
  if old_hwm < hb.hwm then
    let idxs := (List.range (hb.hwm - old_hwm)).map (fun k => old_hwm + 1 + k)
    match apply_logs_loop s hb.from_id idxs [] with
    | (effs, true) =>
      ({ s with replication := { s.replication with hwm := hb.hwm } }, effs)
    | (effs, false) => (s, effs)
  else (s, [])

/-- `replicate` from actor.rs: leaders return immediately; a log-entry
rejection is acked with the post-truncation last index and stops the
step before any state replication. -/
def replicate (s : ClusterState) (hb : HeartBeat) : ClusterState × List Effect :=
  if s.replication.is_leader then (s, [])
  else
    match replicate_log_entries s hb with
    | (s1, effs, some rej) =>
      (s1, effs ++ send_replication_ack s1 hb.from_id
        (ReplicationAck.reject s1.logger.last_log_index rej s1.replication))
    | (s1, effs, none) =>
      let (s2, effs2) := replicate_state s1 hb
      (s2, effs ++ effs2)

/-- `reset_election_timeout` from actor.rs: touches the sender's
`last_seen` (the timer effect), resets the scheduler and forces the
election state to `Follower { voted_for: None }`. -/
def reset_election_timeout (s : ClusterState) (_leader_id : PeerId) : ClusterState :=
  { s with replication :=
      { s.replication with election_state := .follower none } }

/-- `maybe_update_term` from actor.rs. -/
def maybe_update_term (s : ClusterState) (new_term : Nat) : ClusterState :=
  if s.replication.term < new_term then
    let repl := { s.replication with
      term := new_term, election_state := ElectionState.follower none,
      role := ReplicationRole.follower }
    { s with replication := repl }
  else s

/-- `append_entries_rpc` from actor.rs (`check_term_outdated` inlined:
a strictly lower heartbeat term draws a `ReceiverHasHigherTerm`
rejection and ends the step). -/
def append_entries_rpc (s : ClusterState) (hb : HeartBeat) :
    ClusterState × List Effect :=
  if hb.term < s.replication.term then
    (s, send_replication_ack s hb.from_id
      (ReplicationAck.reject s.logger.last_log_index .receiverHasHigherTerm
        s.replication))
  else
    let s1 := maybe_update_term (reset_election_timeout s hb.from_id) hb.term
    let (s2, effs) := replicate s1 hb
    (s2, .resetElectionTimer hb.from_id :: effs)

/-- `vote_election` from actor.rs: an unknown candidate (not a member,
or a member of another shard group) ends the step with no reply. -/
def vote_election (s : ClusterState) (votable : ElectionState → Bool)
    (rv : RequestVote) : ClusterState × List Effect :=
  if (s.find_replica rv.candidate_id).isNone then (s, [])
  else
    let res :=
      if s.logger.last_log_index ≤ rv.last_log_index then
        s.replication.become_follower_if_term_higher_and_votable votable
          rv.candidate_id rv.term
      else (s.replication, false)
    let s1 := { s with replication := res.1 }
    let term := s1.replication.term
    if (s1.find_replica rv.candidate_id).isNone then (s1, [])
    else (s1, [.sendTo rv.candidate_id (.electionVote term res.2)])

/-- `hop_count` from actor.rs: 0 when the node count is at most the
fanout, otherwise `node_count.ilog(fanout) as u8`.  Rust's `ilog` is
the floor logarithm (`Nat.log`); the `as u8` cast is `% 256`. -/
def hop_count (fanout node_count : Nat) : Nat :=
  if node_count ≤ fanout then 0
  else (Nat.log fanout node_count) % 256

/-- `shard_leaders` from actor.rs: the (replid, id) pairs of member
peers whose role is Leader, extended with self when self is a leader. -/
def shard_leaders (s : ClusterState) : List (ReplId × PeerId) :=
  let iter := (s.members.filter (fun m => m.2.role == ReplicationRole.leader)).map
    (fun m => (m.2.replid, m.1))
  if s.replication.is_leader then
    iter ++ [(s.replication.replid, s.replication.self_id)]
  else iter

/-- `block_write_reqs` from actor.rs. -/
def block_write_reqs (s : ClusterState) : ClusterState :=
  if s.pending_requests.isNone then
    { s with pending_requests := some [],
             pending_migrations := some ([] : List (Nat × List String)) }
  else s

/-- The inner batching loop of `maybe_update_hashring`, on the
reversed task list (the Rust loop pops from the back of the vector):
take tasks until the summed key count exceeds 100. -/
def take_batch : List MigrationTask → Nat → List MigrationTask →
    List MigrationTask × List MigrationTask
  | [], _, acc => (acc, [])
  | t :: rest, num, acc =>
    let num := num + t.keys_to_migrate.length
    let acc := acc ++ [t]
    if 100 < num then (acc, rest) else take_batch rest num acc

def mk_batches_go : Nat → List MigrationTask → List (List MigrationTask)
  | 0, _ => []
  | _, [] => []
  | fuel + 1, tasks =>
    let (batch, rest) := take_batch tasks 0 []
    batch :: mk_batches_go fuel rest

/-- Batches for one migration plan, drawn from the back of the task
vector as in the source loop. -/
def mk_batches (tasks : List MigrationTask) : List (List MigrationTask) :=
  mk_batches_go tasks.length tasks.reverse

/-- `maybe_update_hashring` from actor.rs.  The consistent-hash
planner (`HashRing::create_migration_tasks`, outside src/) and the
cache key listing (`CacheManager::route_keys`) are abstracted as the
`createPlans` and `local_keys` parameters; every theorem below holds
for all instantiations. -/
def maybe_update_hashring (s : ClusterState)
    (createPlans : HashRing → HashRing → List String →
      List (ReplId × List MigrationTask))
    (local_keys : List String) (hashring : Option HashRing) :
    ClusterState × List Effect :=
  match hashring with
  | none => (s, [])
  | some new_ring =>
    if new_ring == s.hash_ring then (s, [])
    else if new_ring.last_modified < s.hash_ring.last_modified then (s, [])
    else if !s.replication.is_leader then
      ({ s with hash_ring := new_ring }, [])
    else
      let plans := createPlans s.hash_ring new_ring local_keys
      if plans.isEmpty then
        ({ s with hash_ring := new_ring }, [.broadcastTopology])
      else
        let s1 := block_write_reqs s
        (s1, plans.flatMap (fun plan =>
          (mk_batches plan.2).map (fun b => .scheduleMigrationBatch plan.1 b)))

/-- `leader_req_consensus` from actor.rs.  Key routing
(`HashRing::get_node_for_keys`, outside src/) is abstracted as the
`route` parameter. -/
def leader_req_consensus (s : ClusterState) (walOk : Bool)
    (route : List String → Except String ReplId) (req : ConsensusRequest) :
    ClusterState × List Effect :=
  match s.pending_requests with
  | some q => ({ s with pending_requests := some (q ++ [req]) }, [])
  | none =>
    if sessions_is_processed s.client_sessions req.session_req then
      (s, [.callback req.cbId
        (.alreadyProcessed req.request.keys s.logger.last_log_index)])
    else
      match route req.request.keys with
      | .ok replid =>
        if replid == s.replication.replid then req_consensus s walOk req
        else (s, [.callback req.cbId (.text ("MOVED " ++ toString replid))])
      | .error e => (s, [.callback req.cbId (.text e)])

/-- `unblock_write_reqs_if_done` from actor.rs: a no-op while
migrations are outstanding; otherwise the ring is rewritten from the
current shard leaders, topology is broadcast, and the queued requests
are re-enqueued front to back. -/
def unblock_write_reqs_if_done (s : ClusterState) : ClusterState × List Effect :=
  let migrations_done := match s.pending_migrations with
    | none => true
    | some p => p.isEmpty
  if migrations_done then
    let s1 := match s.hash_ring.set_partitions (shard_leaders s) with
      | some new_ring => { s with hash_ring := new_ring }
      | none => s
    match s1.pending_requests with
    | some pending_reqs =>
      let s2 := { s1 with pending_requests := none, pending_migrations := none }
      (s2, Effect.broadcastTopology ::
        pending_reqs.map Effect.enqueueLeaderReqConsensus)
    | none => (s1, [Effect.broadcastTopology])
  else (s, [])

/-- The actor steps the hwm claim ranges over: the leader consensus
entry point, replication acknowledgements, and follower state
replication. -/
inductive ActorStep
  | reqConsensus (walOk : Bool) (req : ConsensusRequest)
  | ackReplication (res : ReplicationAck)
  | replicateState (hb : HeartBeat)
deriving DecidableEq

def run_step (s : ClusterState) : ActorStep → ClusterState × List Effect
  | .reqConsensus walOk req => req_consensus s walOk req
  | .ackReplication res => ack_replication s res
  | .replicateState hb => replicate_state s hb

def run_steps (s : ClusterState) : List ActorStep → ClusterState × List Effect
  | [] => (s, [])
  | step :: rest =>
    let (s1, effs) := run_step s step
    let (s2, effs2) := run_steps s1 rest
    (s2, effs ++ effs2)

/-! The client command parser (presentation/clients/request.rs).
Rust's Unicode case mapping is modelled by Lean's ASCII
`Char.toUpper` / `Char.toLower`; every command token is ASCII. -/

inductive LazyOption
  | lazy
  | eager
deriving DecidableEq

inductive ClientAction
  | ping
  | echo (msg : String)
  | config (key value : String)
  | get (key : String)
  | mget (keys : List String)
  | indexGet (key : String) (index : Nat)
  | set (key value : String)
  | append (key value : String)
  | setWithExpiry (key value : String) (px_millis : Int)
  | keys (pattern : Option String)
  | delete (keys : List String)
  | save
  | info
  | clusterInfo
  | clusterNodes
  | clusterForget (peer : String)
  | clusterReshard
  | replicaOf (peer : String)
  | exists (keys : List String)
  | role
  | incr (key : String)
  | decr (key : String)
  | ttl (key : String)
  | clusterMeet (peer : String) (opt : LazyOption)
  | incrBy (key : String) (increment : Int)
  | decrBy (key : String) (decrement : Int)
deriving DecidableEq

def strUpper (s : String) : String := ⟨s.data.map Char.toUpper⟩

def strLower (s : String) : String := ⟨s.data.map Char.toLower⟩

/-- The argument-count error string produced by `require_exact_args`,
`require_non_empty_args` and the inline checks of SET/APPEND/GET. -/
def wrong_args_msg (cmd : String) : String :=
  "(error) ERR wrong number of arguments for '" ++ cmd ++ "' command"

def require_exact_args (cmd : String) (args : List String) (count : Nat) :
    Except String Unit :=
  if args.length ≠ count then .error (wrong_args_msg (strLower cmd))
  else .ok ()

def require_non_empty_args (cmd : String) (args : List String) :
    Except String Unit :=
  if args.isEmpty then .error (wrong_args_msg (strLower cmd))
  else .ok ()

/-- `extract_expiry` from request.rs parses a signed millisecond
offset (and then adds it to the current time; the embedding keeps the
offset, time being outside the model). -/
def extract_expiry (s : String) : Except String Int :=
  match s.toInt? with
  | some n => .ok n
  | none => .error "Invalid expiry"

/-- Modelled from the spec (§6; peers/identifier.rs is outside src/):
`bind_addr` validates a host:port peer address. -/
def bind_addr (s : String) : Except String String :=
  if (s.splitOn ":").length == 2 then .ok s else .error "invalid bind address"

/-- Modelled from the spec (§6): `LazyOption::from_str` accepts
exactly the tokens `lazy` and `eager`. -/
def lazy_option_from_str (s : String) : Option LazyOption :=
  if s == "lazy" then some .lazy
  else if s == "eager" then some .eager
  else none

def cluster_subcommand (cmd : String) (args : List String) :
    Except String ClientAction :=
  let sub := strUpper (args.getD 0 "")
  if sub = "NODES" then .ok .clusterNodes
  else if sub = "INFO" then .ok .clusterInfo
  else if sub = "FORGET" then
    if args.length ≠ 2 then
      .error (wrong_args_msg (strLower cmd ++ " forget"))
    else
      match bind_addr (args.getD 1 "") with
      | .ok addr => .ok (.clusterForget addr)
      | .error e => .error e
  else if sub = "MEET" then
    if args.length == 2 then
      match bind_addr (args.getD 1 "") with
      | .ok addr => .ok (.clusterMeet addr .lazy)
      | .error e => .error e
    else if args.length == 3 then
      match lazy_option_from_str (args.getD 2 "") with
      | some opt =>
        match bind_addr (args.getD 1 "") with
        | .ok addr => .ok (.clusterMeet addr opt)
        | .error e => .error e
      | none =>
        .error ("(error) ERR wrong arguments for 'cluster meet' command," ++
          " expected 'lazy' or 'eager'")
    else .error (wrong_args_msg (strLower cmd ++ " meet"))
  else if sub = "RESHARD" then .ok .clusterReshard
  else .error "(error) ERR unknown subcommand"

/-- The dispatch body of `extract_action`, taking the uppercased
command. -/
def extract_action_cmd (cmd : String) (args : List String) :
    Except String ClientAction :=
  if cmd = "SET" then
    if !(args.length == 2 ||
         (args.length == 4 && strUpper (args.getD 2 "") == "PX")) then
      .error (wrong_args_msg "set")
    else if args.length == 2 then
      .ok (.set (args.getD 0 "") (args.getD 1 ""))
    else
      match extract_expiry (args.getD 3 "") with
      | .ok px => .ok (.setWithExpiry (args.getD 0 "") (args.getD 1 "") px)
      | .error e => .error e
  else if cmd = "APPEND" then
    if args.length ≠ 2 then .error (wrong_args_msg "append")
    else .ok (.append (args.getD 0 "") (args.getD 1 ""))
  else if cmd = "GET" then
    if args.length == 1 then .ok (.get (args.getD 0 ""))
    else if args.length == 2 then
      match (args.getD 1 "").toNat? with
      | some idx => .ok (.indexGet (args.getD 0 "") idx)
      | none => .error "invalid digit found in string"
    else .error (wrong_args_msg "get")
  else if cmd = "KEYS" then
    match require_exact_args cmd args 1 with
    | .error e => .error e
    | .ok _ =>
      if args.getD 0 "" == "*" then .ok (.keys none)
      else .ok (.keys (some (args.getD 0 "")))
  else if cmd = "DEL" then
    match require_non_empty_args cmd args with
    | .error e => .error e
    | .ok _ => .ok (.delete args)
  else if cmd = "EXISTS" then
    match require_non_empty_args cmd args with
    | .error e => .error e
    | .ok _ => .ok (.exists args)
  else if cmd = "PING" then
    match require_exact_args cmd args 0 with
    | .error e => .error e
    | .ok _ => .ok .ping
  else if cmd = "ECHO" then
    match require_exact_args cmd args 1 with
    | .error e => .error e
    | .ok _ => .ok (.echo (args.getD 0 ""))
  else if cmd = "INFO" then
    match require_non_empty_args cmd args with
    | .error e => .error e
    | .ok _ => .ok .info
  else if cmd = "CLUSTER" then
    match require_non_empty_args cmd args with
    | .error e => .error e
    | .ok _ => cluster_subcommand cmd args
  else if cmd = "REPLICAOF" then
    match require_exact_args cmd args 2 with
    | .error e => .error e
    | .ok _ =>
      match (args.getD 1 "").toNat? with
      | some port =>
        if port < 65536 then
          .ok (.replicaOf (args.getD 0 "" ++ ":" ++ toString port))
        else .error "invalid digit found in string"
      | none => .error "invalid digit found in string"
  else if cmd = "ROLE" then
    match require_exact_args cmd args 0 with
    | .error e => .error e
    | .ok _ => .ok .role
  else if cmd = "CONFIG" then
    match require_exact_args cmd args 2 with
    | .error e => .error e
    | .ok _ => .ok (.config (args.getD 0 "") (args.getD 1 ""))
  else if cmd = "SAVE" then
    match require_exact_args cmd args 0 with
    | .error e => .error e
    | .ok _ => .ok .save
  else if cmd = "INCR" then
    match require_exact_args cmd args 1 with
    | .error e => .error e
    | .ok _ => .ok (.incr (args.getD 0 ""))
  else if cmd = "DECR" then
    match require_exact_args cmd args 1 with
    | .error e => .error e
    | .ok _ => .ok (.decr (args.getD 0 ""))
  else if cmd = "TTL" then
    match require_exact_args cmd args 1 with
    | .error e => .error e
    | .ok _ => .ok (.ttl (args.getD 0 ""))
  else if cmd = "INCRBY" then
    match require_exact_args cmd args 2 with
    | .error e => .error e
    | .ok _ =>
      match (args.getD 1 "").toInt? with
      | some n => .ok (.incrBy (args.getD 0 "") n)
      | none => .error "invalid digit found in string"
  else if cmd = "DECRBY" then
    match require_exact_args cmd args 2 with
    | .error e => .error e
    | .ok _ =>
      match (args.getD 1 "").toInt? with
      | some n => .ok (.decrBy (args.getD 0 "") n)
      | none => .error "invalid digit found in string"
  else if cmd = "MGET" then
    match require_non_empty_args cmd args with
    | .error e => .error e
    | .ok _ => .ok (.mget args)
  else
    .error ("(error) ERR unknown command '" ++ cmd ++
      "', with args beginning with " ++
      String.intercalate " " (args.map (fun a => "'" ++ a ++ "'")))

/-- `extract_action` from request.rs. -/
def extract_action (action : String) (args : List String) :
    Except String ClientAction :=
  extract_action_cmd (strUpper action) args

/-! Concrete fixtures used by the closed witness and counterexample
theorems below. -/

/-- A follower replication record: self 1, shard group 5, term 3. -/
def exFollowerRepl : ReplicationState := ⟨1, 5, .follower, 3, .follower none, 0⟩

/-- A leader peer with id 9 in shard group 5. -/
def exLeaderPeer : Peer := ⟨5, .leader, 0⟩

/-- A two-entry follower log: index 1 at term 1, index 2 at term 2. -/
def exLog2 : ReplicatedLogs := ⟨[⟨1, 1, ⟨[]⟩, none⟩, ⟨2, 2, ⟨[]⟩, none⟩]⟩

/-- A follower state that knows its leader (peer 9). -/
def exFollowerState : ClusterState :=
  ⟨[(9, exLeaderPeer)], exFollowerRepl, exLog2, [], [], ⟨[(5, 9)], 0⟩,
    none, none⟩

/-- A heartbeat from peer 9 whose previous-entry term 9 disagrees with
the local entry at index 1 (term 1). -/
def exMismatchHb : HeartBeat := ⟨9, 3, 0, 1, 9, [⟨3, 3, ⟨[]⟩, none⟩]⟩

/-- The votable predicate of a standard follower that has not voted. -/
def exVotable : ElectionState → Bool := fun es =>
  match es with
  | .follower none => true
  | _ => false

/-- A leader (self 1, shard group 5, term 3) with one replica, peer 11. -/
def exLeaderState : ClusterState :=
  ⟨[(11, ⟨5, .follower, 0⟩)], ⟨1, 5, .leader, 3, .leader, 0⟩, ⟨[]⟩, [], [],
    ⟨[(5, 1)], 0⟩, none, none⟩

/-- A leader mid-reconfiguration: one queued write, no outstanding
migration batches. -/
def exBlockedLeader : ClusterState :=
  ⟨[], ⟨1, 5, .leader, 3, .leader, 0⟩, ⟨[]⟩, [], [], ⟨[(5, 1)], 0⟩,
    some [⟨⟨["a"]⟩, none, 7⟩], some []⟩

end Duva

namespace Duva

/-- C8: for fanout ≥ 2 and a node count that fits in a machine word,
`hop_count` returns 0 when `n ≤ fanout` and `⌊log_fanout n⌋`
otherwise. -/
theorem hop_count_spec (fanout n : Nat) (hf : 2 ≤ fanout) (hn : n < 2 ^ 64) :
    hop_count fanout n = if n ≤ fanout then 0 else Nat.log fanout n := by
  unfold hop_count
  by_cases h : n ≤ fanout
  · simp [h]
  · simp only [h, if_false]
    apply Nat.mod_eq_of_lt
    have h2 : Nat.log fanout n ≤ Nat.log 2 n :=
      Nat.log_anti_left (by norm_num) hf
    have h3 : Nat.log 2 n < 64 := Nat.log_lt_of_lt_pow (by omega) hn
    omega

/-- Witness for `hop_count_spec` at fanout 2, node count 10. -/
theorem hop_count_spec_witness :
    hop_count 2 10 = if 10 ≤ 2 then 0 else Nat.log 2 10 :=
  hop_count_spec 2 10 (by decide) (by decide)

/-- C9: `INFO` with an empty argument list is rejected by
`require_non_empty_args` with the wrong-number-of-arguments error,
while `INFO` with any non-empty argument list parses to the Info
action. -/
theorem extract_action_info_spec :
    extract_action "INFO" ([] : List String) =
      .error (wrong_args_msg "info") ∧
    ∀ args : List String, args ≠ [] →
      extract_action "INFO" args = .ok .info := by
  refine ⟨rfl, ?_⟩
  intro args h
  match args, h with
  | a :: rest, _ => rfl

/-- Witness for `extract_action_info_spec` at argument list ["x"]. -/
theorem extract_action_info_spec_witness :
    extract_action "INFO" ["x"] = .ok .info :=
  extract_action_info_spec.2 ["x"] (by decide)

/-- C7 counterexample: the source error string carries a trailing
" command" that the claim omits; at PING with one argument the parser
does not return the claimed exact string. -/
theorem extract_action_error_string_counterexample :
    extract_action "PING" ["x"] =
      .error "(error) ERR wrong number of arguments for 'ping' command" ∧
    "(error) ERR wrong number of arguments for 'ping' command" ≠
      "(error) ERR wrong number of arguments for 'ping'" :=
  ⟨rfl, by decide⟩

/-- C7 (amended): every argument count rejected by
`require_exact_args` or `require_non_empty_args` yields exactly
"(error) ERR wrong number of arguments for '<cmd>' command" where
<cmd> is the lowercased command name. -/
theorem extract_action_wrong_arg_count (action : String) (args : List String)
    (h :
      (strUpper action = "KEYS" ∧ args.length ≠ 1) ∨
      (strUpper action = "DEL" ∧ args = []) ∨
      (strUpper action = "EXISTS" ∧ args = []) ∨
      (strUpper action = "PING" ∧ args ≠ []) ∨
      (strUpper action = "ECHO" ∧ args.length ≠ 1) ∨
      (strUpper action = "INFO" ∧ args = []) ∨
      (strUpper action = "CLUSTER" ∧ args = []) ∨
      (strUpper action = "REPLICAOF" ∧ args.length ≠ 2) ∨
      (strUpper action = "ROLE" ∧ args ≠ []) ∨
      (strUpper action = "CONFIG" ∧ args.length ≠ 2) ∨
      (strUpper action = "SAVE" ∧ args ≠ []) ∨
      (strUpper action = "INCR" ∧ args.length ≠ 1) ∨
      (strUpper action = "DECR" ∧ args.length ≠ 1) ∨
      (strUpper action = "TTL" ∧ args.length ≠ 1) ∨
      (strUpper action = "INCRBY" ∧ args.length ≠ 2) ∨
      (strUpper action = "DECRBY" ∧ args.length ≠ 2) ∨
      (strUpper action = "MGET" ∧ args = [])) :
    extract_action action args =
      .error (wrong_args_msg (strLower (strUpper action))) := by
  unfold extract_action
  rcases h with ⟨h1, h2⟩ | ⟨h1, h2⟩ | ⟨h1, h2⟩ | ⟨h1, h2⟩ | ⟨h1, h2⟩ |
    ⟨h1, h2⟩ | ⟨h1, h2⟩ | ⟨h1, h2⟩ | ⟨h1, h2⟩ | ⟨h1, h2⟩ | ⟨h1, h2⟩ |
    ⟨h1, h2⟩ | ⟨h1, h2⟩ | ⟨h1, h2⟩ | ⟨h1, h2⟩ | ⟨h1, h2⟩ | ⟨h1, h2⟩ <;>
  rw [h1] <;>
  simp_all [extract_action_cmd, require_exact_args, require_non_empty_args,
    List.isEmpty_iff, List.length_eq_zero]

/-- Witness for `extract_action_wrong_arg_count` at MGET with no
arguments. -/
theorem extract_action_wrong_arg_count_witness :
    extract_action "MGET" ([] : List String) =
      .error (wrong_args_msg (strLower (strUpper "MGET"))) :=
  extract_action_wrong_arg_count "MGET" []
    (Or.inr (Or.inr (Or.inr (Or.inr (Or.inr (Or.inr (Or.inr (Or.inr
      (Or.inr (Or.inr (Or.inr (Or.inr (Or.inr (Or.inr (Or.inr (Or.inr
        ⟨by decide, rfl⟩))))))))))))))))

/-- C6: `maybe_update_hashring` is a no-op (state unchanged, no
effects, hence no migration planned) when the incoming ring is
absent, equal to the local ring, or older by `last_modified`; this
holds for every migration planner and key listing. -/
theorem maybe_update_hashring_noop (s : ClusterState)
    (createPlans : HashRing → HashRing → List String →
      List (ReplId × List MigrationTask))
    (keys : List String) :
    maybe_update_hashring s createPlans keys none = (s, []) ∧
    (∀ r, r = s.hash_ring →
      maybe_update_hashring s createPlans keys (some r) = (s, [])) ∧
    (∀ r, r.last_modified < s.hash_ring.last_modified →
      maybe_update_hashring s createPlans keys (some r) = (s, [])) := by
  refine ⟨rfl, ?_, ?_⟩
  · intro r hr
    subst hr
    simp [maybe_update_hashring]
  · intro r hr
    by_cases he : r = s.hash_ring
    · subst he
      simp [maybe_update_hashring]
    · simp [maybe_update_hashring, he, hr]

/-- Witness for `maybe_update_hashring_noop`: a strictly older ring is
ignored by a concrete leader state. -/
theorem maybe_update_hashring_noop_witness :
    maybe_update_hashring
      ⟨[], ⟨1, 5, .leader, 3, .leader, 0⟩, ⟨[]⟩, [], [], ⟨[(5, 1)], 4⟩,
        none, none⟩
      (fun _ _ _ => []) [] (some ⟨[(5, 1)], 2⟩) =
      (⟨[], ⟨1, 5, .leader, 3, .leader, 0⟩, ⟨[]⟩, [], [], ⟨[(5, 1)], 4⟩,
        none, none⟩, []) :=
  (maybe_update_hashring_noop _ _ _).2.2 ⟨[(5, 1)], 2⟩ (by decide)

/-- C10: a consensus request at a non-leader is answered with the
follower refusal and changes nothing; at a leader with no replicas, a
successful single-entry append immediately bumps the high-water mark
and completes the callback with the new last log index, adding no
consensus-tracker entry and sending no peer message. -/
theorem req_consensus_no_replica_spec (s : ClusterState)
    (req : ConsensusRequest) :
    (∀ walOk, s.replication.is_leader = false →
      req_consensus s walOk req =
        (s, [.callback req.cbId (.text "Write given to follower")])) ∧
    (s.replication.is_leader = true → s.replicas_count = 0 →
      req_consensus s true req =
        ({ s with
            logger := (s.logger.write_single_entry req.request
              s.replication.term req.session_req),
            replication := { s.replication with hwm := s.replication.hwm + 1 } },
         [.callback req.cbId (.logIndex
            ((s.logger.write_single_entry req.request s.replication.term
              req.session_req).last_log_index))])) := by
  constructor
  · intro walOk h
    simp [req_consensus, h]
  · intro h hc
    have hrc : ClusterState.replicas_count
        { s with logger := (s.logger.write_single_entry req.request
            s.replication.term req.session_req) } = 0 := hc
    simp [req_consensus, h, hrc]

/-- Replacing the replication record with one carrying the same
replid does not change which peers count as replicas. -/
theorem find_replica_replication_update (s : ClusterState)
    (r : ReplicationState) (pid : PeerId)
    (hr : r.replid = s.replication.replid) :
    ClusterState.find_replica { s with replication := r } pid =
      s.find_replica pid := by
  unfold ClusterState.find_replica Peer.is_replica
  rw [hr]

/-- C1: previous-entry consistency on a follower.  With an empty log
the check passes exactly when `prev_log_index = 0`.  With a non-empty
log and a term mismatch at `prev_log_index`, the replication step
truncates all indices above `prev_log_index`, appends nothing, and
acks a `LogInconsistency` rejection. -/
theorem ensure_prev_consistency_spec (s : ClusterState) (hb : HeartBeat)
    (e : LogEntry) :
    (∀ (l : ReplicatedLogs) (pi pt : Nat), l.is_empty = true →
      ((ensure_prev_consistency l pi pt).2 = none ↔ pi = 0)) ∧
    (s.replication.is_leader = false →
      hb.append_entries ≠ [] →
      s.logger.is_empty = false →
      s.logger.read_at hb.prev_log_index = some e →
      e.term ≠ hb.prev_log_term →
      replicate s hb =
        ({ s with logger := s.logger.truncate_after hb.prev_log_index },
         send_replication_ack
           { s with logger := s.logger.truncate_after hb.prev_log_index }
           hb.from_id
           (ReplicationAck.reject
             (s.logger.truncate_after hb.prev_log_index).last_log_index
             .logInconsistency s.replication))) := by
  constructor
  · intro l pi pt hl
    unfold ensure_prev_consistency
    by_cases hpi : pi = 0 <;> simp [hl, hpi]
  · intro hlead hne hlog hread hterm
    unfold replicate replicate_log_entries ensure_prev_consistency
    simp [hlead, hne, hlog, hread, hterm, List.isEmpty_iff, bne_iff_ne]

/-- Witness for `ensure_prev_consistency_spec`: a concrete follower
whose entry at index 1 disagrees with the leader's previous term
truncates index 2 away and rejects. -/
theorem ensure_prev_consistency_spec_witness :
    replicate exFollowerState exMismatchHb =
      ({ exFollowerState with
          logger := exFollowerState.logger.truncate_after
            exMismatchHb.prev_log_index },
       send_replication_ack
         { exFollowerState with
            logger := exFollowerState.logger.truncate_after
              exMismatchHb.prev_log_index }
         exMismatchHb.from_id
         (ReplicationAck.reject
           (exFollowerState.logger.truncate_after
             exMismatchHb.prev_log_index).last_log_index
           .logInconsistency exFollowerState.replication)) :=
  (ensure_prev_consistency_spec exFollowerState exMismatchHb
      ⟨1, 1, ⟨[]⟩, none⟩).2
    rfl (by decide) rfl (by decide) (by decide)

/-- C2: a heartbeat with a strictly lower term draws a
`ReceiverHasHigherTerm` rejection ack (to a known sender) with no
state change at all — no timer reset, no term change, no replication;
otherwise the election timer is reset against the sender, the term is
bumped to the heartbeat term when that is higher (role Follower, no
recorded vote), and the step proceeds to replicate. -/
theorem append_entries_rpc_spec (s : ClusterState) (hb : HeartBeat) :
    (hb.term < s.replication.term →
      (s.members.find? (fun m => m.1 == hb.from_id)).isSome = true →
      append_entries_rpc s hb =
        (s, [.sendTo hb.from_id (.replicationAck
          (ReplicationAck.reject s.logger.last_log_index
            .receiverHasHigherTerm s.replication))])) ∧
    (¬ hb.term < s.replication.term →
      append_entries_rpc s hb =
        ((replicate (maybe_update_term (reset_election_timeout s hb.from_id)
            hb.term) hb).1,
         .resetElectionTimer hb.from_id ::
           (replicate (maybe_update_term (reset_election_timeout s hb.from_id)
             hb.term) hb).2) ∧
      (maybe_update_term (reset_election_timeout s hb.from_id)
          hb.term).replication.term = max s.replication.term hb.term ∧
      (s.replication.term < hb.term →
        (maybe_update_term (reset_election_timeout s hb.from_id)
            hb.term).replication.role = .follower ∧
        (maybe_update_term (reset_election_timeout s hb.from_id)
            hb.term).replication.election_state = .follower none)) := by
  constructor
  · intro h hm
    simp [append_entries_rpc, send_replication_ack, h, hm]
  · intro h
    have hterm : (maybe_update_term (reset_election_timeout s hb.from_id)
        hb.term).replication.term = max s.replication.term hb.term := by
      unfold maybe_update_term reset_election_timeout
      by_cases hc : s.replication.term < hb.term
      · simp only [hc, if_true]
        omega
      · simp only [hc, if_false]
        omega
    have heq : append_entries_rpc s hb =
        ((replicate (maybe_update_term (reset_election_timeout s hb.from_id)
            hb.term) hb).1,
         .resetElectionTimer hb.from_id ::
           (replicate (maybe_update_term (reset_election_timeout s hb.from_id)
             hb.term) hb).2) := by
      unfold append_entries_rpc
      simp [h]
    refine ⟨heq, hterm, ?_⟩
    intro hlt
    unfold maybe_update_term reset_election_timeout
    simp [hlt]

/-- Witness for `append_entries_rpc_spec`: a known sender with term 1
against local term 3 is rejected with no state change. -/
theorem append_entries_rpc_spec_witness :
    append_entries_rpc exFollowerState ⟨9, 1, 0, 0, 0, []⟩ =
      (exFollowerState,
       [.sendTo 9 (.replicationAck
         (ReplicationAck.reject exFollowerState.logger.last_log_index
           .receiverHasHigherTerm exFollowerState.replication))]) :=
  (append_entries_rpc_spec exFollowerState ⟨9, 1, 0, 0, 0, []⟩).1
    (by decide) (by decide)

/-- C3 counterexample: a request vote whose candidate is not a member
draws no reply at all, refuting the claim that the receiver replies in
every case. -/
theorem vote_election_no_reply_counterexample :
    vote_election
      ⟨[], exFollowerRepl, ⟨[]⟩, [], [], ⟨[(5, 1)], 0⟩, none, none⟩
      exVotable ⟨9, 10, 5⟩ =
      (⟨[], exFollowerRepl, ⟨[]⟩, [], [], ⟨[(5, 1)], 0⟩, none, none⟩,
       []) := by
  decide

/-- C3 (amended): the vote is granted iff the candidate is a known
replica of the current replid, the local last log index is at most
the candidate's, and the term rule permits (strictly higher candidate
term and votable election state); the receiver replies with its own
(possibly updated) term and the grant flag whenever the candidate is
a known replica, and sends nothing when it is not. -/
theorem vote_election_spec (s : ClusterState)
    (votable : ElectionState → Bool) (rv : RequestVote) :
    ((s.find_replica rv.candidate_id).isNone = true →
      vote_election s votable rv = (s, [])) ∧
    ((s.find_replica rv.candidate_id).isSome = true →
      (vote_election s votable rv).2 =
        [.sendTo rv.candidate_id (.electionVote
          (vote_election s votable rv).1.replication.term
          (decide (s.logger.last_log_index ≤ rv.last_log_index) &&
           (decide (s.replication.term < rv.term) &&
            votable s.replication.election_state)))]) := by
  constructor
  · intro h
    simp [vote_election, h]
  · intro h
    have hn : (s.find_replica rv.candidate_id).isNone = false := by
      cases hx : s.find_replica rv.candidate_id with
      | none => rw [hx] at h; simp at h
      | some p => simp
    by_cases hlog : s.logger.last_log_index ≤ rv.last_log_index <;>
    by_cases hcond : (decide (s.replication.term < rv.term) &&
        votable s.replication.election_state) = true <;>
    simp [vote_election,
      ReplicationState.become_follower_if_term_higher_and_votable,
      find_replica_replication_update, hn, hlog, hcond]

/-- Witness for `vote_election_spec`: a known replica candidate with
a higher term and longer log is granted the vote, and the reply
carries the adopted term. -/
theorem vote_election_spec_witness :
    (vote_election exFollowerState exVotable ⟨9, 10, 5⟩).2 =
      [.sendTo 9 (.electionVote
        (vote_election exFollowerState exVotable ⟨9, 10, 5⟩).1.replication.term
        (decide (exFollowerState.logger.last_log_index ≤ (5 : Nat)) &&
         (decide (exFollowerState.replication.term < (10 : Nat)) &&
          exVotable exFollowerState.replication.election_state)))] :=
  (vote_election_spec exFollowerState exVotable ⟨9, 10, 5⟩).2 (by decide)

/-- C5: while a reconfiguration is active every leader-consensus
request is queued with no other state change and no effect (no
commit, no log write, no callback); the unblock step is a no-op while
migration batches are outstanding, and once they are done it rewrites
the ring from the current shard leaders, broadcasts topology, drops
both pending maps, and re-enqueues the queued requests front to back
as fresh leader-consensus commands. -/
theorem pending_requests_spec (s : ClusterState) :
    (∀ (q : List ConsensusRequest) (walOk : Bool)
      (route : List String → Except String ReplId) (req : ConsensusRequest),
      s.pending_requests = some q →
      leader_req_consensus s walOk route req =
        ({ s with pending_requests := some (q ++ [req]) }, [])) ∧
    (∀ p, s.pending_migrations = some p → p ≠ [] →
      unblock_write_reqs_if_done s = (s, [])) ∧
    (∀ q, s.pending_requests = some q →
      (s.pending_migrations = none ∨ s.pending_migrations = some []) →
      unblock_write_reqs_if_done s =
        ({ s with
            hash_ring := ((s.hash_ring.set_partitions (shard_leaders s)).getD
              s.hash_ring),
            pending_requests := none, pending_migrations := none },
         Effect.broadcastTopology :: q.map Effect.enqueueLeaderReqConsensus) ∧
      (unblock_write_reqs_if_done s).1.hash_ring.partitions =
        shard_leaders s) := by
  refine ⟨?_, ?_, ?_⟩
  · intro q walOk route req hq
    simp [leader_req_consensus, hq]
  · intro p hp hne
    unfold unblock_write_reqs_if_done
    rw [hp]
    simp [List.isEmpty_iff, hne]
  · intro q hq hmig
    have hdone : (match s.pending_migrations with
        | none => true
        | some p => p.isEmpty) = true := by
      rcases hmig with h | h <;> simp [h]
    cases hsp : s.hash_ring.set_partitions (shard_leaders s) with
    | none =>
      have hparts : shard_leaders s = s.hash_ring.partitions := by
        unfold HashRing.set_partitions at hsp
        by_cases hpe : shard_leaders s = s.hash_ring.partitions
        · exact hpe
        · simp [hpe] at hsp
      constructor
      · unfold unblock_write_reqs_if_done
        rw [hdone]
        simp [hsp, hq]
      · unfold unblock_write_reqs_if_done
        rw [hdone]
        simp [hsp, hq]
        exact hparts.symm
    | some nr =>
      have hparts : nr.partitions = shard_leaders s := by
        unfold HashRing.set_partitions at hsp
        by_cases hpe : shard_leaders s = s.hash_ring.partitions
        · simp [hpe] at hsp
        · simp only [beq_iff_eq, hpe, if_false] at hsp
          cases hsp
          rfl
      constructor
      · unfold unblock_write_reqs_if_done
        rw [hdone]
        simp [hsp, hq]
      · unfold unblock_write_reqs_if_done
        rw [hdone]
        simp [hsp, hq]
        exact hparts

/-- Witness for `pending_requests_spec`: a blocked leader with an
empty migration map drains its one queued request. -/
theorem pending_requests_spec_witness :
    unblock_write_reqs_if_done exBlockedLeader =
      ({ exBlockedLeader with
          hash_ring :=
            ((exBlockedLeader.hash_ring.set_partitions
              (shard_leaders exBlockedLeader)).getD exBlockedLeader.hash_ring),
          pending_requests := none, pending_migrations := none },
       Effect.broadcastTopology ::
         List.map Effect.enqueueLeaderReqConsensus [⟨⟨["a"]⟩, none, 7⟩]) :=
  ((pending_requests_spec exBlockedLeader).2.2 [⟨⟨["a"]⟩, none, 7⟩]
    rfl (Or.inr rfl)).1

/-- Auxiliary: `req_consensus` never lowers the high-water mark. -/
theorem req_consensus_hwm_mono (s : ClusterState) (walOk : Bool)
    (req : ConsensusRequest) :
    s.replication.hwm ≤ (req_consensus s walOk req).1.replication.hwm := by
  simp only [req_consensus]
  split_ifs <;> simp

/-- Auxiliary: `track_replication_progress` never lowers the
high-water mark. -/
theorem track_replication_progress_hwm_mono (s : ClusterState)
    (res : ReplicationAck) :
    s.replication.hwm ≤
      (track_replication_progress s res).1.replication.hwm := by
  simp only [track_replication_progress]
  split
  · exact Nat.le_refl _
  · split_ifs <;> simp [ClusterState.update_peer_match]

/-- Auxiliary: `ack_replication` never lowers the high-water mark. -/
theorem ack_replication_hwm_mono (s : ClusterState) (res : ReplicationAck) :
    s.replication.hwm ≤ (ack_replication s res).1.replication.hwm := by
  simp only [ack_replication]
  split_ifs with h
  · simp only [handle_repl_rejection]
    split <;> simp [step_down, decrease_match_index,
      ClusterState.update_peer_match]
  · calc s.replication.hwm
        = (s.update_peer_match res.from_id res.log_idx).replication.hwm := rfl
      _ ≤ _ := track_replication_progress_hwm_mono _ res

/-- Auxiliary: `replicate_state` never lowers the high-water mark. -/
theorem replicate_state_hwm_mono (s : ClusterState) (hb : HeartBeat) :
    s.replication.hwm ≤ (replicate_state s hb).1.replication.hwm := by
  simp only [replicate_state]
  split_ifs with h
  · split
    · simp
      omega
    · simp
  · simp

/-- C4 (amended): across every sequence of the modeled actor steps
(leader consensus, replication ack, follower state replication) the
high-water mark never decreases; but a write callback `LogIndex(i)`
can fire while `hwm < i`, since each commit adds exactly one to the
counter — see `hwm_callback_counterexample`. -/
theorem hwm_monotone (steps : List ActorStep) : ∀ s : ClusterState,
    s.replication.hwm ≤ (run_steps s steps).1.replication.hwm := by
  induction steps with
  | nil => intro s; exact Nat.le_refl _
  | cons step rest ih =>
    intro s
    have h1 : s.replication.hwm ≤ (run_step s step).1.replication.hwm := by
      cases step with
      | reqConsensus walOk req => exact req_consensus_hwm_mono s walOk req
      | ackReplication res => exact ack_replication_hwm_mono s res
      | replicateState hb => exact replicate_state_hwm_mono s hb
    calc s.replication.hwm ≤ (run_step s step).1.replication.hwm := h1
      _ ≤ (run_steps (run_step s step).1 rest).1.replication.hwm :=
          ih (run_step s step).1
      _ = (run_steps s (step :: rest)).1.replication.hwm := rfl

/-- C4 counterexample: a leader with one replica appends two entries
(indices 1 and 2); a single ack for index 2 reaches the vote quota,
the callback fires with `LogIndex 2`, yet the high-water mark has
only been incremented to 1. -/
theorem hwm_callback_counterexample :
    Effect.callback 8 (.logIndex 2) ∈
      (run_steps exLeaderState
        [.reqConsensus true ⟨⟨[]⟩, none, 7⟩,
         .reqConsensus true ⟨⟨[]⟩, none, 8⟩,
         .ackReplication ⟨11, 3, 2, none⟩]).2 ∧
    (run_steps exLeaderState
        [.reqConsensus true ⟨⟨[]⟩, none, 7⟩,
         .reqConsensus true ⟨⟨[]⟩, none, 8⟩,
         .ackReplication ⟨11, 3, 2, none⟩]).1.replication.hwm = 1 ∧
    1 < 2 := by
  refine ⟨?_, ?_, ?_⟩ <;> decide

/-- Witness for `req_consensus_no_replica_spec`: a concrete leader
with no members commits immediately at index 1. -/
theorem req_consensus_no_replica_spec_witness :
    req_consensus
      ⟨[], ⟨1, 5, .leader, 3, .leader, 0⟩, ⟨[]⟩, [], [], ⟨[(5, 1)], 0⟩,
        none, none⟩ true ⟨⟨["k"]⟩, none, 7⟩ =
      (⟨[], ⟨1, 5, .leader, 3, .leader, 1⟩,
        ⟨[⟨1, 3, ⟨["k"]⟩, none⟩]⟩, [], [], ⟨[(5, 1)], 0⟩, none, none⟩,
       [.callback 7 (.logIndex 1)]) := by
  have h := (req_consensus_no_replica_spec
    ⟨[], ⟨1, 5, .leader, 3, .leader, 0⟩, ⟨[]⟩, [], [], ⟨[(5, 1)], 0⟩,
      none, none⟩ ⟨⟨["k"]⟩, none, 7⟩).2 (by decide) (by decide)
  simpa using h

end Duva
